import Mathlib

/-!
Shallow embedding of `src/app.py` (id-registration-app): a stdlib-only HTTP
handler that serves a registration form, stores uploaded ID images in a
directory, appends registration rows to a CSV file, and renders an admin
listing.  Strings are modelled as `List Char`; the filesystem (record-store
CSV file and upload directory) is explicit state; the wall clock and
`uuid.uuid4()` are supplied through an `Env` record.
-/

/-- Strings of the embedded program, modelled as lists of characters. -/
abbrev Str := List Char

/-! ## Python string primitives used by `app.py` -/

/-- Python `str.split(sep)` for a one-character separator. -/
def splitOnChar (sep : Char) : Str → List Str
  | [] => [[]]
  | c :: rest =>
    if c = sep then [] :: splitOnChar sep rest
    else
      match splitOnChar sep rest with
      | [] => [[c]]
      | h :: t => (c :: h) :: t

/-- Python `s.split(sep, 1)`: `none` when `sep` does not occur, otherwise the
part before the first `sep` and the part after it. -/
def split1 (sep : Char) (l : Str) : Option (Str × Str) :=
  if sep ∈ l then
    some (l.takeWhile (fun c => c ≠ sep), (l.dropWhile (fun c => c ≠ sep)).tail)
  else none

/-- Python `s.rsplit(sep, 1)[1]`: the suffix after the last occurrence of
`sep` (meaningful only when `sep` occurs in `l`). -/
def afterLast (sep : Char) (l : Str) : Str :=
  (l.reverse.takeWhile (fun c => c ≠ sep)).reverse

/-- Python `str.lower` (ASCII case folding suffices for the call sites). -/
def lowerStr (s : Str) : Str := s.map Char.toLower

/-- Characters treated as whitespace by Python `str.strip()` (ASCII part). -/
def pyIsSpace (c : Char) : Bool :=
  c = ' ' ∨ c = '\t' ∨ c = '\n' ∨ c = '\r' ∨ c = Char.ofNat 11 ∨ c = Char.ofNat 12

/-- Python `str.strip()`: drop leading and trailing whitespace. -/
def strip (s : Str) : Str :=
  ((s.dropWhile pyIsSpace).reverse.dropWhile pyIsSpace).reverse

/-- Helper for `replaceAll`; the fuel argument (always instantiated with the
length of the input, which every step strictly decreases) only makes the
recursion structural. -/
def replaceAllAux (pat rep : Str) : Nat → Str → Str
  | _, [] => []
  | 0, l => l
  | fuel + 1, c :: rest =>
    if pat.isPrefixOf (c :: rest) ∧ pat ≠ [] then
      rep ++ replaceAllAux pat rep fuel (List.drop (pat.length - 1) rest)
    else
      c :: replaceAllAux pat rep fuel rest

/-- Python `str.replace(pat, rep)`: replace every (non-overlapping, leftmost)
occurrence of `pat` by `rep`.  All call sites in `app.py` pass a nonempty
literal pattern. -/
def replaceAll (pat rep : Str) (l : Str) : Str :=
  replaceAllAux pat rep l.length l

example : replaceAll "ab".data "X".data "zababy".data = "zXXy".data := by decide
example : strip "  hi ".data = "hi".data := by decide
example : afterLast '.' "a.b.png".data = "png".data := by decide
example : splitOnChar '&' "a=1&&b=2".data = ["a=1".data, [], "b=2".data] := by decide

/-! ## Percent-encoding and decoding (`urllib.parse`) -/

/-- Value of a hexadecimal digit character, if any. -/
def hexVal (c : Char) : Option Nat :=
  if '0' ≤ c ∧ c ≤ '9' then some (c.toNat - '0'.toNat)
  else if 'a' ≤ c ∧ c ≤ 'f' then some (c.toNat - 'a'.toNat + 10)
  else if 'A' ≤ c ∧ c ≤ 'F' then some (c.toNat - 'A'.toNat + 10)
  else none

/-- UTF-8 encoding of a character as a list of byte values. -/
def utf8Bytes (c : Char) : List Nat :=
  let n := c.toNat
  if n < 0x80 then [n]
  else if n < 0x800 then [0xC0 + n / 64, 0x80 + n % 64]
  else if n < 0x10000 then
    [0xE0 + n / 4096, 0x80 + (n / 64) % 64, 0x80 + n % 64]
  else
    [0xF0 + n / 262144, 0x80 + (n / 4096) % 64, 0x80 + (n / 64) % 64, 0x80 + n % 64]

/-- Uppercase hexadecimal digit for a value below 16. -/
def hexDigit (n : Nat) : Char :=
  if n < 10 then Char.ofNat ('0'.toNat + n) else Char.ofNat ('A'.toNat + n - 10)

/-- Percent-escape of one byte value, `%XX` with uppercase hex digits
(what `urllib.parse.quote` emits for an unsafe byte). -/
def pctEncodeByte (b : Nat) : Str :=
  ['%', hexDigit (b / 16), hexDigit (b % 16)]

/-- Characters never escaped by `urllib.parse.quote`: ASCII letters, digits
and `_.-~` (the module's `ALWAYS_SAFE`) plus the default `safe` value `/`. -/
def quoteSafe (c : Char) : Bool :=
  (('A' ≤ c ∧ c ≤ 'Z') ∨ ('a' ≤ c ∧ c ≤ 'z') ∨ ('0' ≤ c ∧ c ≤ '9')) ∨
    c = '_' ∨ c = '.' ∨ c = '-' ∨ c = '~' ∨ c = '/'

/-- Python `urllib.parse.quote(s)` with the default `safe='/'`: keep safe
characters, percent-escape every byte of the UTF-8 encoding of the rest. -/
def urllib.parse.quote (s : Str) : Str :=
  s.flatMap fun c =>
    if quoteSafe c then [c] else (utf8Bytes c).flatMap pctEncodeByte

/-- Unicode replacement character, produced for undecodable bytes
(`errors='replace'`, the default of `urllib.parse.unquote`). -/
def replacementChar : Char := Char.ofNat 0xFFFD

/-- Whether a byte value is a UTF-8 continuation byte. -/
def isCont (b : Nat) : Bool := 0x80 ≤ b ∧ b ≤ 0xBF

/-- Helper for `utf8Decode`; the fuel argument (instantiated with the byte
count, which every step strictly decreases) makes the recursion structural. -/
def utf8DecodeAux : Nat → List Nat → Str
  | _, [] => []
  | 0, _ => []
  | fuel + 1, b :: rest =>
    if b < 0x80 then Char.ofNat b :: utf8DecodeAux fuel rest
    else if b < 0xC2 then replacementChar :: utf8DecodeAux fuel rest
    else if b < 0xE0 then
      match rest with
      | b2 :: r2 =>
        if isCont b2 then Char.ofNat ((b - 0xC0) * 64 + (b2 - 0x80)) :: utf8DecodeAux fuel r2
        else replacementChar :: utf8DecodeAux fuel rest
      | [] => [replacementChar]
    else if b < 0xF0 then
      match rest with
      | b2 :: b3 :: r3 =>
        if (if b = 0xE0 then 0xA0 ≤ b2 ∧ b2 ≤ 0xBF
            else if b = 0xED then 0x80 ≤ b2 ∧ b2 ≤ 0x9F
            else isCont b2 = true) ∧ isCont b3 then
          Char.ofNat ((b - 0xE0) * 4096 + (b2 - 0x80) * 64 + (b3 - 0x80)) ::
            utf8DecodeAux fuel r3
        else replacementChar :: utf8DecodeAux fuel rest
      | _ => [replacementChar]
    else if b < 0xF5 then
      match rest with
      | b2 :: b3 :: b4 :: r4 =>
        if (if b = 0xF0 then 0x90 ≤ b2 ∧ b2 ≤ 0xBF
            else if b = 0xF4 then 0x80 ≤ b2 ∧ b2 ≤ 0x8F
            else isCont b2 = true) ∧ isCont b3 ∧ isCont b4 then
          Char.ofNat
              ((b - 0xF0) * 262144 + (b2 - 0x80) * 4096 + (b3 - 0x80) * 64 + (b4 - 0x80)) ::
            utf8DecodeAux fuel r4
        else replacementChar :: utf8DecodeAux fuel rest
      | _ => [replacementChar]
    else replacementChar :: utf8DecodeAux fuel rest

/-- Decode a UTF-8 byte sequence to characters, replacing invalid sequences
with U+FFFD (`errors='replace'`). -/
def utf8Decode (bs : List Nat) : Str := utf8DecodeAux bs.length bs

example : utf8Decode (utf8Bytes 'é') = ['é'] := by decide
example : utf8Decode [0x41, 0xFF, 0x42] = ['A', replacementChar, 'B'] := by decide

/-- Byte sequence obtained by percent-decoding: a valid `%XX` escape yields
the byte `XX`; anything else contributes its own UTF-8 bytes (invalid escapes
are kept literally, as `urllib.parse.unquote` does). -/
def pctBytes : Str → List Nat
  | [] => []
  | '%' :: h1 :: h2 :: rest =>
    match hexVal h1, hexVal h2 with
    | some a, some b => (a * 16 + b) :: pctBytes rest
    | _, _ => utf8Bytes '%' ++ pctBytes (h1 :: h2 :: rest)
  | c :: rest => utf8Bytes c ++ pctBytes rest

/-- Python `urllib.parse.unquote_plus(s)`: turn `+` into spaces, then
percent-decode and interpret the bytes as UTF-8 (`errors='replace'`). -/
def urllib.parse.unquote_plus (s : Str) : Str :=
  utf8Decode (pctBytes (s.map fun c => if c = '+' then ' ' else c))

/-- Python `urllib.parse.parse_qsl(qs)` with default arguments: split the
query on `&`; chunks without `=` and chunks with an empty value are dropped
(`keep_blank_values` defaults to `False`); names and values are
plus/percent-decoded. -/
def urllib.parse.parse_qsl (qs : Str) : List (Str × Str) :=
  (splitOnChar '&' qs).filterMap fun nv =>
    match split1 '=' nv with
    | none => none
    | some (n, v) =>
      if v = [] then none
      else some (urllib.parse.unquote_plus n, urllib.parse.unquote_plus v)

/-- Value of `urllib.parse.parse_qs(qs).get(key, [''])[0]`: the first value
recorded for `key`, or the empty string when `key` is absent. -/
def firstParam (qs : Str) (key : Str) : Str :=
  match (urllib.parse.parse_qsl qs).find? (fun p => p.1 = key) with
  | some p => p.2
  | none => []

example : firstParam "error=a+b%21&x=1".data "error".data = "a b!".data := by decide
example : firstParam "error=".data "error".data = [] := by decide
example : firstParam "x=1".data "error".data = [] := by decide

/-! ## URL parsing (`urllib.parse.urlparse`, restricted to origin-form
request targets, i.e. URLs beginning with a single `/`) -/

/-- Split a URL at the first `#`, keeping the part before it (the fragment is
separated first by `urlsplit`). -/
def dropFragment (u : Str) : Str := u.takeWhile fun c => c ≠ '#'

/-- Path-and-params portion of a URL: the part before the first `?` of the
fragment-stripped URL. -/
def rawPathPart (u : Str) : Str := (dropFragment u).takeWhile fun c => c ≠ '?'

/-- Query portion of a URL: the part after the first `?` of the
fragment-stripped URL (empty when there is no `?`). -/
def queryPart (u : Str) : Str :=
  ((dropFragment u).dropWhile fun c => c ≠ '?').tail

/-- Python `urllib.parse._splitparams`, applied by `urlparse`: drop the `;`
parameters of the last path segment, if any. -/
def splitParams (p : Str) : Str :=
  if (p.reverse.takeWhile fun c => c ≠ '/').contains ';' then
    ((p.reverse.dropWhile fun c => c ≠ '/').reverse) ++
      ((p.reverse.takeWhile fun c => c ≠ '/').reverse.takeWhile fun c => c ≠ ';')
  else p

/-- The `.path` component of `urllib.parse.urlparse(u)` for an origin-form
request target. -/
def urlPath (u : Str) : Str := splitParams (rawPathPart u)

example : urlPath "/admin?x=1#f".data = "/admin".data := by decide
example : urlPath "/a/b;p?q".data = "/a/b".data := by decide
example : queryPart "/?error=hi#f".data = "error=hi".data := by decide

/-- Python `os.path.basename` (posix): the part after the last `/`. -/
def os.path.basename (p : Str) : Str :=
  (p.reverse.takeWhile fun c => c ≠ '/').reverse

example : os.path.basename "../../etc/passwd.png".data = "passwd.png".data := by decide

/-! ## HTML escaping (`cgi.escape`) -/

/-- Python `cgi.escape(s, quote)`: replace `&`, then `<`, then `>`, and only
when `quote` is true also `"`.  Every call site in `app.py` uses the default
`quote=False`. -/
def cgi.escape (s : Str) (quote : Bool) : Str :=
  let s1 := replaceAll "&".data "&amp;".data s
  let s2 := replaceAll "<".data "&lt;".data s1
  let s3 := replaceAll ">".data "&gt;".data s2
  if quote then replaceAll "\"".data "&quot;".data s3 else s3

example : cgi.escape "<b>&".data false = "&lt;b&gt;&amp;".data := by decide
example : cgi.escape "a\"b".data false = "a\"b".data := by decide

/-! ## Templates

The `templates/` directory of the repository is not part of `src/`, so the
three template files are modelled from the spec. -/

/-- Modelled from the spec: `templates/index.html` is not in `src/`; the spec
says the form page template carries one optional placeholder for an error
banner fragment, the literal token `{error_message}`. -/
def indexTemplate : Str :=
  "<html><body><h1>Register</h1>{error_message}<form>...</form></body></html>".data

/-- Modelled from the spec: `templates/success.html` is not in `src/`; the
spec says the success page template carries the `{first_name}` and
`{last_name}` placeholders. -/
def successTemplate : Str :=
  "<html><body><p>Thank you, {first_name} {last_name}. Your registration has been received.</p></body></html>".data

/-- Modelled from the spec: `templates/admin.html` is not in `src/`; the spec
says the admin template carries one placeholder, `{table_rows}`, for a
pre-built HTML fragment of table rows. -/
def adminTemplate : Str :=
  "<html><body><h1>Registrations</h1>{table_rows}</body></html>".data

/-! ## Data model and server state -/

/-- An uploaded file part of the multipart form (`cgi.FieldStorage` item):
its original client-side filename and its bytes. -/
structure FilePart where
  filename : Str
  content : List Nat
deriving DecidableEq, Repr

/-- Parsed `POST /register` form, the result of `cgi.FieldStorage`: the three
text fields (`none` when absent from the submission) and the two file parts. -/
structure Form where
  first_name : Option Str
  last_name : Option Str
  id_type : Option Str
  id_front : Option FilePart
  id_back : Option FilePart
deriving DecidableEq, Repr

/-- Python `form.getvalue(name, default)` for a text field. -/
def getvalue (v : Option Str) (default : Str) : Str := v.getD default

/-- Environment of one `handle_registration` call: the values drawn from the
wall clock and `uuid.uuid4()`, and whether each filesystem write raises. -/
structure Env where
  /-- Value of `datetime.datetime.now().strftime('%Y%m%d_%H%M%S_%f')` taken
  when the upload filenames are generated (22 characters, fixed width). -/
  fileTimestamp : Str
  /-- Value of `uuid.uuid4().hex` (32 lowercase hex characters). -/
  uuidHex : Str
  /-- Value of `datetime.datetime.now().isoformat()` taken when the CSV row
  is written. -/
  recordTimestamp : Str
  /-- Whether writing the front image raises an exception. -/
  ioFailSaveFront : Bool
  /-- Whether writing the back image raises an exception. -/
  ioFailSaveBack : Bool
  /-- Whether opening or appending to the CSV file raises an exception
  (modelled as failing before any change to the file). -/
  ioFailRecord : Bool
deriving DecidableEq, Repr

/-- State of the server's filesystem: the CSV record store (`none` while
`registrations.csv` does not exist, otherwise its rows — `csv` quoting is
immaterial at row granularity) and the upload directory's files. -/
structure ServerState where
  database : Option (List (List Str))
  uploads : List (Str × List Nat)
deriving DecidableEq, Repr

/-- Writing a file: overwrite the entry when the name already exists
(`open(path, 'wb')`), otherwise add it. -/
def fsWrite (files : List (Str × List Nat)) (name : Str) (content : List Nat) :
    List (Str × List Nat) :=
  if files.any (fun p => p.1 = name) then
    files.map fun p => if p.1 = name then (name, content) else p
  else files ++ [(name, content)]

/-- Responses the handler can produce.  `page` is `send_response(200)`
followed by an HTML body, `redirect` is `send_response(303)` with a
`Location` header, `httpError` is `self.send_error(status, reason)`, and
`fileResponse` is a 200 with raw file bytes. -/
inductive Response where
  | page (body : Str)
  | redirect (location : Str)
  | httpError (status : Nat) (reason : Str)
  | fileResponse (contentType : Str) (content : List Nat)
deriving DecidableEq, Repr

/-- HTTP status code of a response. -/
def Response.status : Response → Nat
  | .page _ => 200
  | .redirect _ => 303
  | .httpError s _ => s
  | .fileResponse _ _ => 200

/-- HTML body of a response (empty for non-page responses). -/
def Response.body : Response → Str
  | .page b => b
  | _ => []

/-! ## Page rendering (`render_index`, `render_success`, `render_admin`) -/

/-- Flash banner fragment built by `render_index` for a non-empty message:
`f'<div class="flash-messages"><li>{cgi.escape(error_message)}</li></div>'`. -/
def flashFragment (error_message : Str) : Str :=
  "<div class=\"flash-messages\"><li>".data ++ cgi.escape error_message false ++
    "</li></div>".data

/-- Body produced by `render_index`: the index template with the literal
token `{error_message}` replaced by the flash fragment (or by nothing when
the message is empty). -/
def render_index (error_message : Str) : Str :=
  let error_html := if error_message ≠ [] then flashFragment error_message else []
  replaceAll "{error_message}".data error_html indexTemplate

/-- Body produced by `render_success`: the success template with
`{first_name}` and then `{last_name}` replaced by the escaped names. -/
def render_success (first_name last_name : Str) : Str :=
  let c1 := replaceAll "{first_name}".data (cgi.escape first_name false) successTemplate
  replaceAll "{last_name}".data (cgi.escape last_name false) c1

/-- Lookup of `row[key]` in a `csv.DictReader` row whose field names are
`hdr` (the first line of the CSV file). -/
def dictGet (hdr row : List Str) (key : Str) : Str :=
  match hdr.findIdx? (fun h => h = key) with
  | some i => row.getD i []
  | none => []

/-- One `<tr>` of the admin table: timestamp, first name, last name and id
type are HTML-escaped; the two filenames are URL-quoted into the link and
image attributes. -/
def adminRow (hdr row : List Str) : Str :=
  let timestamp := cgi.escape (dictGet hdr row "timestamp".data) false
  let first_name := cgi.escape (dictGet hdr row "first_name".data) false
  let last_name := cgi.escape (dictGet hdr row "last_name".data) false
  let id_type := cgi.escape (dictGet hdr row "id_type".data) false
  let front := urllib.parse.quote (dictGet hdr row "front_filename".data)
  let back := urllib.parse.quote (dictGet hdr row "back_filename".data)
  "<tr><td>".data ++ timestamp ++ "</td><td>".data ++ first_name ++
    "</td><td>".data ++ last_name ++ "</td><td>".data ++ id_type ++
    "</td><td><a href=\"/uploads/".data ++ front ++ "\" target=\"_blank\">".data ++
    "<img src=\"/uploads/".data ++ front ++
    "\" alt=\"ID front\" class=\"thumb\"></a></td>".data ++
    "<td><a href=\"/uploads/".data ++ back ++ "\" target=\"_blank\">".data ++
    "<img src=\"/uploads/".data ++ back ++
    "\" alt=\"ID back\" class=\"thumb\"></a></td></tr>".data

/-- Opening piece of the admin table (`rows_html[0]` in the source). -/
def adminTableHead : Str :=
  ("<table class=\"admin-table\">\n  <thead><tr><th>Timestamp</th><th>First Name</th>" ++
    "<th>Last Name</th><th>ID Type</th><th>ID Front</th><th>ID Back</th></tr></thead>\n  <tbody>").data

/-- Entries read by `render_admin`: `csv.DictReader` pairs every row after
the header line with the header line. -/
def adminEntries (st : ServerState) : List (List Str × List Str) :=
  match st.database with
  | none => []
  | some [] => []
  | some (hdr :: rows) => rows.map fun row => (hdr, row)

/-- Body produced by `render_admin`: either the joined table pieces or the
no-registrations paragraph, substituted for `{table_rows}`. -/
def render_admin (st : ServerState) : Str :=
  let entries := adminEntries st
  let table_html :=
    if entries ≠ [] then
      List.intercalate "\n".data
        (adminTableHead :: entries.map (fun e => adminRow e.1 e.2) ++
          ["  </tbody>\n</table>".data])
    else "<p>No registrations yet.</p>".data
  replaceAll "{table_rows}".data table_html adminTemplate

/-! ## Registration handling -/

/-- Extension check of `handle_registration`:
`'.' in filename and filename.rsplit('.', 1)[1].lower() in {'png', 'jpg', 'jpeg', 'gif'}`
(`rsplit('.', 1)[1]` is the suffix after the last dot). -/
def allowed (filename : Str) : Bool :=
  decide ('.' ∈ filename) &&
    decide (lowerStr (afterLast '.' filename) ∈
      ["png".data, "jpg".data, "jpeg".data, "gif".data])

example : allowed "a.PNG".data = true := by decide
example : allowed "a.png.txt".data = false := by decide
example : allowed "png".data = false := by decide
example : allowed "a.".data = false := by decide

/-- Generated storage filename,
`f"{timestamp}_{unique_id}_{side}_{os.path.basename(original)}"` with the
basename already taken by the caller. -/
def makeUploadName (timestamp unique_id side base : Str) : Str :=
  timestamp ++ '_' :: unique_id ++ '_' :: side ++ '_' :: base

/-- Header line written to a fresh `registrations.csv`. -/
def headerRow : List Str :=
  ["timestamp".data, "first_name".data, "last_name".data, "id_type".data,
    "front_filename".data, "back_filename".data]

/-- Append a data row to the CSV file, writing the header line first when the
file did not previously exist. -/
def appendRecord (database : Option (List (List Str))) (row : List Str) :
    List (List Str) :=
  match database with
  | none => [headerRow, row]
  | some rows => rows ++ [row]

/-- Response of `redirect_with_error`: a 303 whose `Location` is
`f'/?error={urllib.parse.quote(message)}'`. -/
def redirect_with_error (message : Str) : Response :=
  Response.redirect ("/?error=".data ++ urllib.parse.quote message)

/-- The `handle_registration` method of `app.py`: validate the text fields,
the presence of the two file parts and their extensions, then write both
files into the upload directory and append one row to the CSV file, and
finally render the success page.  Multipart parsing by `cgi.FieldStorage` is
abstracted (the parsed form is an input), and the method's local variables
(`first_name`, `front_filename`, ... — assigned once, never mutated) are
inlined at their use sites. -/
def handle_registration (env : Env) (contentType : Option Str) (form : Form)
    (st : ServerState) : ServerState × Response :=
  match contentType with
  | none => (st, redirect_with_error "Missing Content-Type header.".data)
  | some _ =>
    if strip (getvalue form.first_name []) = [] ∨ strip (getvalue form.last_name []) = [] ∨
        strip (getvalue form.id_type []) = [] then
      (st, redirect_with_error "Please complete all required fields.".data)
    else
      match form.id_front with
      | none => (st, redirect_with_error "Please upload a valid front image file.".data)
      | some front_file =>
        if front_file.filename = [] then
          (st, redirect_with_error "Please upload a valid front image file.".data)
        else
          match form.id_back with
          | none => (st, redirect_with_error "Please upload a valid back image file.".data)
          | some back_file =>
            if back_file.filename = [] then
              (st, redirect_with_error "Please upload a valid back image file.".data)
            else if allowed front_file.filename = false then
              (st, redirect_with_error "Front image must be a PNG/JPG/JPEG/GIF file.".data)
            else if allowed back_file.filename = false then
              (st, redirect_with_error "Back image must be a PNG/JPG/JPEG/GIF file.".data)
            else if env.ioFailSaveFront then
              (st, redirect_with_error "Failed to save uploaded files.".data)
            else if env.ioFailSaveBack then
              ({ st with uploads :=
                  (fsWrite st.uploads
                    (makeUploadName env.fileTimestamp env.uuidHex "front".data
                      (os.path.basename front_file.filename)) front_file.content) },
                redirect_with_error "Failed to save uploaded files.".data)
            else if env.ioFailRecord then
              ({ st with uploads :=
                  (fsWrite
                    (fsWrite st.uploads
                      (makeUploadName env.fileTimestamp env.uuidHex "front".data
                        (os.path.basename front_file.filename)) front_file.content)
                    (makeUploadName env.fileTimestamp env.uuidHex "back".data
                      (os.path.basename back_file.filename)) back_file.content) },
                redirect_with_error "Failed to record registration data.".data)
            else
              ({ database := some (appendRecord st.database
                    [env.recordTimestamp, strip (getvalue form.first_name []),
                      strip (getvalue form.last_name []), strip (getvalue form.id_type []),
                      makeUploadName env.fileTimestamp env.uuidHex "front".data
                        (os.path.basename front_file.filename),
                      makeUploadName env.fileTimestamp env.uuidHex "back".data
                        (os.path.basename back_file.filename)]),
                 uploads :=
                  (fsWrite
                    (fsWrite st.uploads
                      (makeUploadName env.fileTimestamp env.uuidHex "front".data
                        (os.path.basename front_file.filename)) front_file.content)
                    (makeUploadName env.fileTimestamp env.uuidHex "back".data
                      (os.path.basename back_file.filename)) back_file.content) },
                Response.page (render_success (strip (getvalue form.first_name []))
                  (strip (getvalue form.last_name []))))

/-! ## Request routing (`do_GET`, `do_POST`, and the dispatcher of the
`http.server` base class) -/

/-- Contents of the static directory: flat files, the relative paths that are
directories, and the best-effort MIME guess (`self.guess_type`, inherited and
modelled abstractly; no claim examines the Content-Type). -/
structure Fs where
  staticFiles : List (Str × List Nat)
  staticDirs : List Str
  mime : Str → Str

/-- The `serve_static` method: directory → 403, missing → 404, otherwise the
file bytes. -/
def serve_static (fs : Fs) (path : Str) : Response :=
  let rel := path.drop "/static/".length
  if rel ∈ fs.staticDirs then Response.httpError 403 "Forbidden".data
  else
    match fs.staticFiles.find? (fun p => p.1 = rel) with
    | none => Response.httpError 404 "Not Found".data
    | some p => Response.fileResponse (fs.mime rel) p.2

/-- The `serve_upload` method: missing → 404, otherwise the file bytes (the
upload directory is modelled as flat files; there is no directory check in
the source). -/
def serve_upload (fs : Fs) (st : ServerState) (path : Str) : Response :=
  let rel := path.drop "/uploads/".length
  match st.uploads.find? (fun p => p.1 = rel) with
  | none => Response.httpError 404 "Not Found".data
  | some p => Response.fileResponse (fs.mime rel) p.2

/-- The `do_GET` method: route on the parsed path; unknown paths get
`send_error(404, "File Not Found")`. -/
def do_GET (fs : Fs) (st : ServerState) (rawUrl : Str) : Response :=
  if "/static/".data.isPrefixOf (urlPath rawUrl) then serve_static fs (urlPath rawUrl)
  else if "/uploads/".data.isPrefixOf (urlPath rawUrl) then serve_upload fs st (urlPath rawUrl)
  else if urlPath rawUrl = "/".data ∨ urlPath rawUrl = "/index.html".data then
    Response.page (render_index (firstParam (queryPart rawUrl) "error".data))
  else if urlPath rawUrl = "/admin".data then Response.page (render_admin st)
  else Response.httpError 404 "File Not Found".data

/-- The `do_POST` method: only `/register` is handled; everything else gets
`send_error(404, "File Not Found")`. -/
def do_POST (env : Env) (contentType : Option Str) (form : Form)
    (st : ServerState) (rawUrl : Str) : ServerState × Response :=
  if urlPath rawUrl = "/register".data then
    handle_registration env contentType form st
  else (st, Response.httpError 404 "File Not Found".data)

/-- HTTP method of a request: the two methods the handler class implements,
or any other method name. -/
inductive Method where
  | get
  | post
  | other (name : Str)
deriving DecidableEq, Repr

/-- One request dispatch.  `GET` and `POST` run the handler's `do_GET` and
`do_POST`; for any other method `http.server.BaseHTTPRequestHandler`
(the superclass, in the standard library) finds no `do_<METHOD>` attribute
and answers `send_error(501, "Unsupported method ('<METHOD>')")`. -/
def dispatch (env : Env) (contentType : Option Str) (form : Form) (fs : Fs)
    (st : ServerState) (method : Method) (rawUrl : Str) : ServerState × Response :=
  match method with
  | .get => (st, do_GET fs st rawUrl)
  | .post => do_POST env contentType form st rawUrl
  | .other name =>
    (st, Response.httpError 501
      ("Unsupported method (".data ++ '\'' :: name ++ '\'' :: ")".data))

/-! ## Specification-side definitions

These follow the wording of the spec and of the claims, to be compared with
the definitions embedded from the source. -/

/-- Character-wise escaping as the spec words it, applied to one character:
an angle bracket or ampersand becomes its HTML entity, any other character
(quotes included) stays itself. -/
def escapeCharSpec (c : Char) : Str :=
  if c = '&' then "&amp;".data
  else if c = '<' then "&lt;".data
  else if c = '>' then "&gt;".data
  else [c]

/-- Character-wise escaping of a whole string. -/
def specEscape (s : Str) : Str := s.flatMap escapeCharSpec

/-- Extension-check characterization as the claim words it: the filename
splits as some prefix, a dot, and a dot-free suffix whose lowercasing is one
of the four allowed extensions. -/
def SpecAllowed (f : Str) : Prop :=
  ∃ pre suf, f = pre ++ '.' :: suf ∧ '.' ∉ suf ∧
    lowerStr suf ∈ ["png".data, "jpg".data, "jpeg".data, "gif".data]

/-- Whether a query string contains an `error` parameter at all, with or
without a value: some `&`-chunk is exactly `error` or has name `error`. -/
def hasErrorParam (qs : Str) : Bool :=
  (splitOnChar '&' qs).any fun nv =>
    nv = "error".data ∨ (split1 '=' nv).map Prod.fst = some "error".data

/-- Data rows of the record store: the lines after the header line. -/
def dataRows (database : Option (List (List Str))) : List (List Str) :=
  match database with
  | none => []
  | some [] => []
  | some (_ :: rows) => rows

/-- Inputs of one `POST /register` dispatch in a sequence of submissions. -/
structure Step where
  env : Env
  contentType : Option Str
  form : Form

/-- Server state after a sequence of `handle_registration` calls. -/
def runSeq (steps : List Step) (st : ServerState) : ServerState :=
  steps.foldl (fun s stp => (handle_registration stp.env stp.contentType stp.form s).1) st

/-- Header-row invariant of the record store: the file is absent, or its
first line is the header row and the header row occurs nowhere else. -/
def HeaderInv (st : ServerState) : Prop :=
  st.database = none ∨
    ∃ rows, st.database = some (headerRow :: rows) ∧ headerRow ∉ rows

/-! ## Helper lemmas -/

/-- One-character patterns make `replaceAllAux` act character by character. -/
theorem replaceAllAux_singleton (c : Char) (rep : Str) :
    ∀ fuel s, s.length ≤ fuel →
      replaceAllAux [c] rep fuel s =
        s.flatMap fun x => if x = c then rep else [x] := by
  intro fuel
  induction fuel with
  | zero =>
    intro s hs
    cases s with
    | nil => simp [replaceAllAux]
    | cons x rest => simp at hs
  | succ n ih =>
    intro s hs
    cases s with
    | nil => simp [replaceAllAux]
    | cons x rest =>
      simp only [List.length_cons] at hs
      by_cases hx : x = c
      · subst hx
        have hpre : ([x] : Str).isPrefixOf (x :: rest) ∧ ([x] : Str) ≠ [] := by
          refine ⟨?_, by simp⟩
          simp [List.isPrefixOf]
        simp only [replaceAllAux, if_pos hpre, List.length_singleton, Nat.sub_self,
          List.drop_zero, List.flatMap_cons, if_pos rfl]
        rw [ih rest (by omega)]
        simp
      · have hpre : ¬ (([c] : Str).isPrefixOf (x :: rest) ∧ ([c] : Str) ≠ []) := by
          intro h
          have := h.1
          simp [List.isPrefixOf] at this
          exact hx this.symm
        simp only [replaceAllAux, if_neg hpre, List.flatMap_cons, if_neg hx]
        rw [ih rest (by omega)]
        simp

/-- One-character patterns make `replaceAll` act character by character. -/
theorem replaceAll_singleton (c : Char) (rep s : Str) :
    replaceAll [c] rep s = s.flatMap fun x => if x = c then rep else [x] :=
  replaceAllAux_singleton c rep s.length s (Nat.le_refl _)

/-- The sequential replacements of `cgi.escape` with `quote=False` amount to
the character-wise escaping `specEscape`: angle brackets and ampersands are
converted to entities, every other character -- quotes included -- is kept. -/
theorem cgi_escape_eq_specEscape (s : Str) : cgi.escape s false = specEscape s := by
  show (replaceAll ">".data "&gt;".data
      (replaceAll "<".data "&lt;".data (replaceAll "&".data "&amp;".data s))) =
    specEscape s
  have hd : ("&".data : Str) = ['&'] := rfl
  have hd2 : ("<".data : Str) = ['<'] := rfl
  have hd3 : (">".data : Str) = ['>'] := rfl
  rw [hd, hd2, hd3, replaceAll_singleton, replaceAll_singleton, replaceAll_singleton,
    List.flatMap_assoc, List.flatMap_assoc]
  unfold specEscape
  congr 1
  funext x
  by_cases h1 : x = '&'
  · subst h1; decide
  · by_cases h2 : x = '<'
    · subst h2; decide
    · by_cases h3 : x = '>'
      · subst h3; decide
      · simp [h1, h2, h3, escapeCharSpec]


/-- Elements of `takeWhile` satisfy the predicate (specialized restatement). -/
theorem mem_takeWhile (p : Char → Bool) (l : Str) (x : Char)
    (h : x ∈ l.takeWhile p) : p x = true :=
  List.mem_takeWhile_imp h

/-- The first element surviving `dropWhile` falsifies the predicate. -/
theorem dropWhile_head_false (p : Char → Bool) :
    ∀ (l : Str) (x : Char) (xs : Str), l.dropWhile p = x :: xs → p x = false := by
  intro l
  induction l with
  | nil => intro x xs h; simp [List.dropWhile] at h
  | cons a t ih =>
    intro x xs h
    by_cases ha : p a
    · rw [List.dropWhile_cons_of_pos ha] at h
      exact ih x xs h
    · rw [List.dropWhile_cons_of_neg ha] at h
      cases h
      simpa using ha

/-- The `takeWhile` of a list made of an all-true block, a false element and a
tail is exactly the block. -/
theorem takeWhile_block (p : Char → Bool) (l : Str) (y : Char) (r : Str)
    (hl : ∀ x ∈ l, p x = true) (hy : p y = false) :
    (l ++ y :: r).takeWhile p = l := by
  induction l with
  | nil => simp [List.takeWhile_cons, hy]
  | cons a t ih =>
    have ha : p a = true := hl a (by simp)
    simp only [List.cons_append, List.takeWhile_cons, ha, if_true]
    rw [ih fun x hx => hl x (by simp [hx])]

/-- Decomposition of a string at its last dot: when a dot occurs, the string
is a prefix, a dot, and the dot-free suffix `afterLast '.'`. -/
theorem afterLast_decomp (f : Str) (h : '.' ∈ f) :
    ∃ pre, f = pre ++ '.' :: afterLast '.' f ∧ '.' ∉ afterLast '.' f := by
  have hrev : '.' ∈ f.reverse := List.mem_reverse.mpr h
  have hsplit := List.takeWhile_append_dropWhile (fun c => decide (c ≠ '.')) f.reverse
  obtain ⟨x, xs, hd⟩ : ∃ x xs,
      f.reverse.dropWhile (fun c => decide (c ≠ '.')) = x :: xs := by
    cases hdw : f.reverse.dropWhile (fun c => decide (c ≠ '.')) with
    | nil =>
      exfalso
      rw [hdw, List.append_nil] at hsplit
      have h2 := mem_takeWhile _ f.reverse '.' (hsplit ▸ hrev)
      simp at h2
    | cons x xs => exact ⟨x, xs, rfl⟩
  have hx : x = '.' := by
    have h3 := dropWhile_head_false _ f.reverse x xs hd
    simpa using h3
  subst hx
  have hre : f.reverse = f.reverse.takeWhile (fun c => decide (c ≠ '.')) ++ '.' :: xs := by
    rw [← hd]
    exact hsplit.symm
  have hfe : f = xs.reverse ++ '.' :: afterLast '.' f := by
    show f = xs.reverse ++ '.' :: (f.reverse.takeWhile (fun c => decide (c ≠ '.'))).reverse
    have h2 := congrArg List.reverse hre
    rw [List.reverse_reverse] at h2
    nth_rewrite 1 [h2]
    rw [List.reverse_append, List.reverse_cons, List.append_assoc]
    rfl
  refine ⟨xs.reverse, hfe, fun hmem => ?_⟩
  have h4 : ('.' : Char) ∈ f.reverse.takeWhile (fun c => decide (c ≠ '.')) := by
    have heq : afterLast '.' f =
        (f.reverse.takeWhile (fun c => decide (c ≠ '.'))).reverse := rfl
    rw [heq] at hmem
    exact List.mem_reverse.mp hmem
  have h5 := mem_takeWhile _ f.reverse '.' h4
  simp at h5

/-- The suffix after the last dot of `pre ++ '.' :: suf` is `suf` whenever
`suf` is dot-free. -/
theorem afterLast_of_decomp (pre suf : Str) (h : '.' ∉ suf) :
    afterLast '.' (pre ++ '.' :: suf) = suf := by
  show ((pre ++ '.' :: suf).reverse.takeWhile (fun c => decide (c ≠ '.'))).reverse = suf
  have hrw : (pre ++ '.' :: suf).reverse = suf.reverse ++ '.' :: pre.reverse := by
    rw [List.reverse_append, List.reverse_cons, List.append_assoc]
    rfl
  rw [hrw, takeWhile_block _ suf.reverse '.' pre.reverse
    (fun x hx => by
      show decide (x ≠ '.') = true
      simp only [decide_eq_true_eq]
      intro he
      exact h (he ▸ List.mem_reverse.mp hx))
    (by simp), List.reverse_reverse]

/-- The source's extension check agrees with the claim's characterization. -/
theorem allowed_iff_specAllowed (f : Str) : allowed f = true ↔ SpecAllowed f := by
  unfold allowed SpecAllowed
  constructor
  · intro h
    simp only [Bool.and_eq_true, decide_eq_true_eq] at h
    obtain ⟨hdot, hmem⟩ := h
    obtain ⟨pre, hdecomp, hnodot⟩ := afterLast_decomp f hdot
    exact ⟨pre, afterLast '.' f, hdecomp, hnodot, hmem⟩
  · rintro ⟨pre, suf, rfl, hnodot, hmem⟩
    simp only [Bool.and_eq_true, decide_eq_true_eq]
    refine ⟨by simp, ?_⟩
    rw [afterLast_of_decomp pre suf hnodot]
    exact hmem

/-- Writing under a fresh name adds the file at the end of the directory. -/
theorem fsWrite_fresh (files : List (Str × List Nat)) (name : Str) (content : List Nat)
    (h : ∀ p ∈ files, p.1 ≠ name) :
    fsWrite files name content = files ++ [(name, content)] := by
  unfold fsWrite
  rw [if_neg]
  simp only [List.any_eq_true, decide_eq_true_eq, not_exists]
  intro p
  intro hand
  exact h p hand.1 hand.2

/-- Appending a record adds one data row, as long as the CSV file is not a
previously-existing empty file. -/
theorem dataRows_appendRecord (database : Option (List (List Str))) (row : List Str)
    (h : database ≠ some []) :
    dataRows (some (appendRecord database row)) = dataRows database ++ [row] := by
  match database with
  | none => rfl
  | some [] => exact absurd rfl h
  | some (hd :: rows) => simp [appendRecord, dataRows]

/-- Stored name generated for the front image of a submission. -/
def frontUploadName (env : Env) (front : FilePart) : Str :=
  makeUploadName env.fileTimestamp env.uuidHex "front".data (os.path.basename front.filename)

/-- Stored name generated for the back image of a submission. -/
def backUploadName (env : Env) (back : FilePart) : Str :=
  makeUploadName env.fileTimestamp env.uuidHex "back".data (os.path.basename back.filename)

/-- CSV row appended for a successful submission. -/
def successRow (env : Env) (form : Form) (front back : FilePart) : List Str :=
  [env.recordTimestamp, strip (getvalue form.first_name []),
    strip (getvalue form.last_name []), strip (getvalue form.id_type []),
    frontUploadName env front, backUploadName env back]

/-- On a fully valid submission with no I/O failure, `handle_registration`
writes the two files, appends the row, and renders the success page. -/
theorem handle_registration_success
    (env : Env) (ct : Str) (form : Form) (st : ServerState) (front back : FilePart)
    (hf : form.id_front = some front) (hb : form.id_back = some back)
    (h1 : strip (getvalue form.first_name []) ≠ [])
    (h2 : strip (getvalue form.last_name []) ≠ [])
    (h3 : strip (getvalue form.id_type []) ≠ [])
    (hfn : front.filename ≠ []) (hbn : back.filename ≠ [])
    (haf : allowed front.filename = true) (hab : allowed back.filename = true)
    (hio1 : env.ioFailSaveFront = false) (hio2 : env.ioFailSaveBack = false)
    (hio3 : env.ioFailRecord = false) :
    handle_registration env (some ct) form st =
      ({ database := some (appendRecord st.database (successRow env form front back)),
         uploads := fsWrite (fsWrite st.uploads (frontUploadName env front) front.content)
           (backUploadName env back) back.content },
        Response.page (render_success (strip (getvalue form.first_name []))
          (strip (getvalue form.last_name [])))) := by
  unfold handle_registration
  rw [hf, hb]
  dsimp only
  rw [if_neg (by simp [h1, h2, h3]), if_neg hfn, if_neg hbn, haf, hab,
    if_neg (by simp), if_neg (by simp), hio1, hio2, hio3,
    if_neg (by simp), if_neg (by simp), if_neg (by simp)]
  simp only [successRow, frontUploadName, backUploadName]

/-- Any call of `handle_registration` either leaves the CSV file untouched or
appends exactly one row, whose first field is the record timestamp. -/
theorem handle_registration_database (env : Env) (ct : Option Str) (form : Form)
    (st : ServerState) :
    ((handle_registration env ct form st).1).database = st.database ∨
      ∃ rest, ((handle_registration env ct form st).1).database =
        some (appendRecord st.database (env.recordTimestamp :: rest)) := by
  unfold handle_registration
  cases ct with
  | none => exact Or.inl rfl
  | some c =>
    repeat' split
    all_goals first
      | exact Or.inl rfl
      | exact Or.inr ⟨_, rfl⟩


/-- One `handle_registration` call preserves the header-row invariant, as
long as the row's timestamp field is not the literal `timestamp`. -/
theorem headerInv_step (env : Env) (ct : Option Str) (form : Form) (st : ServerState)
    (hts : env.recordTimestamp ≠ "timestamp".data) (hinv : HeaderInv st) :
    HeaderInv (handle_registration env ct form st).1 := by
  rcases handle_registration_database env ct form st with h | ⟨rest, h⟩
  · unfold HeaderInv at hinv ⊢
    rw [h]
    exact hinv
  · have hne : headerRow ≠ env.recordTimestamp :: rest := by
      intro he
      unfold headerRow at he
      injection he with he1 _
      exact hts he1.symm
    unfold HeaderInv at hinv ⊢
    rw [h]
    rcases hinv with hnone | ⟨rows, hdb, hnm⟩
    · rw [hnone]
      refine Or.inr ⟨[env.recordTimestamp :: rest], rfl, ?_⟩
      simp only [List.mem_singleton]
      exact hne
    · rw [hdb]
      refine Or.inr ⟨rows ++ [env.recordTimestamp :: rest], by simp [appendRecord], ?_⟩
      intro hmem
      rcases List.mem_append.mp hmem with hm | hm
      · exact hnm hm
      · exact hne (List.mem_singleton.mp hm)

/-- A whole sequence of `handle_registration` calls preserves the header-row
invariant. -/
theorem headerInv_runSeq (steps : List Step) :
    ∀ st : ServerState, (∀ s ∈ steps, s.env.recordTimestamp ≠ "timestamp".data) →
      HeaderInv st → HeaderInv (runSeq steps st) := by
  induction steps with
  | nil => exact fun st _ h => h
  | cons s rest ih =>
    intro st hts hinv
    unfold runSeq
    simp only [List.foldl_cons]
    exact ih _ (fun x hx => hts x (List.mem_cons_of_mem _ hx))
      (headerInv_step s.env s.contentType s.form st (hts s (List.mem_cons_self _ _)) hinv)

/-- Generated names with distinct tokens of equal length (and equal-width
timestamps) are distinct, whatever the sides and original basenames are. -/
theorem makeUploadName_inj_token (ts₁ tok₁ s₁ b₁ ts₂ tok₂ s₂ b₂ : Str)
    (hts : ts₁.length = ts₂.length) (htok : tok₁.length = tok₂.length)
    (hne : tok₁ ≠ tok₂) :
    makeUploadName ts₁ tok₁ s₁ b₁ ≠ makeUploadName ts₂ tok₂ s₂ b₂ := by
  intro h
  unfold makeUploadName at h
  simp only [List.append_assoc, List.cons_append] at h
  obtain ⟨hts', h2⟩ := List.append_inj h hts
  injection h2 with _ h3
  obtain ⟨htok', _⟩ := List.append_inj h3 htok
  exact hne htok'

/-- Within one submission the front and back names differ: after the shared
timestamp and token, one continues with `front`, the other with `back`. -/
theorem makeUploadName_front_ne_back (ts tok b₁ b₂ : Str) :
    makeUploadName ts tok "front".data b₁ ≠ makeUploadName ts tok "back".data b₂ := by
  intro h
  unfold makeUploadName at h
  simp only [List.append_assoc, List.cons_append] at h
  have h2 := List.append_cancel_left h
  injection h2 with _ h3
  have h4 := List.append_cancel_left h3
  injection h4 with _ h5
  have h6 : (('f' :: "ront".data) ++ '_' :: b₁ : Str) = ('b' :: "ack".data) ++ '_' :: b₂ := h5
  simp only [List.cons_append] at h6
  injection h6 with h7 _
  exact absurd h7 (by decide)

/-- A basename never contains a path separator. -/
theorem basename_no_slash (p : Str) : '/' ∉ os.path.basename p := by
  intro h
  have h2 : '/' ∈ p.reverse.takeWhile (fun c => decide (c ≠ '/')) :=
    List.mem_reverse.mp h
  have h3 := mem_takeWhile _ p.reverse '/' h2
  simp at h3

/-! ## Sample values used by witnesses -/

/-- Sample environment: fixed-width timestamp, 32-hex-digit token, ISO record
timestamp, no I/O failures. -/
def sampleEnv : Env :=
  ⟨"20250101_120000_000000".data, "0123456789abcdef0123456789abcdef".data,
    "2025-01-01T12:00:00".data, false, false, false⟩

/-- Sample fully valid registration form. -/
def sampleForm : Form :=
  ⟨some "Ana".data, some "Lee".data, some "passport".data,
    some ⟨"a.png".data, [137, 80]⟩, some ⟨"b.jpg".data, [255, 216]⟩⟩

/-- Sample fresh server state: no CSV file, empty upload directory. -/
def sampleState : ServerState := ⟨none, []⟩

/-- Sample filesystem for the GET routes. -/
def sampleFs : Fs := ⟨[], [], fun _ => "application/octet-stream".data⟩

/-- Sample Content-Type header value of a multipart submission. -/
def sampleCT : Str := "multipart/form-data; boundary=x".data

/-! ## Claim C1 -/

set_option maxRecDepth 8000 in
/-- C1, as stated, is false: `cgi.escape` is called with its default
`quote=False` everywhere, so a quote character in a substituted value is
inserted unchanged — here the success page for a first name consisting of one
double-quote character contains that raw quote and no `&quot;` entity. -/
theorem C1_counterexample :
    ('"' ∈ render_success ['"'] "B".data) ∧
      ¬ ("&quot;".data : Str) <:+: render_success ['"'] "B".data := by
  constructor
  · decide
  · decide

set_option maxRecDepth 8000 in
/-- C1 (amended): every value substituted into a rendered page (flash error
message, success-page names, admin-page timestamp/name/id-type cells) is
escaped character-wise before insertion, with `<`, `>` and `&` converted to
their HTML entities and every other character — quote characters included —
inserted unchanged. -/
theorem C1_escaping :
    (∀ s : Str, cgi.escape s false = specEscape s) ∧
    (∀ em : Str, em ≠ [] → render_index em =
      replaceAll "{error_message}".data
        ("<div class=\"flash-messages\"><li>".data ++ specEscape em ++ "</li></div>".data)
        indexTemplate) ∧
    (∀ fn ln : Str, render_success fn ln =
      replaceAll "{last_name}".data (specEscape ln)
        (replaceAll "{first_name}".data (specEscape fn) successTemplate)) ∧
    (∀ hdr row : List Str, adminRow hdr row =
      "<tr><td>".data ++ specEscape (dictGet hdr row "timestamp".data) ++
        "</td><td>".data ++ specEscape (dictGet hdr row "first_name".data) ++
        "</td><td>".data ++ specEscape (dictGet hdr row "last_name".data) ++
        "</td><td>".data ++ specEscape (dictGet hdr row "id_type".data) ++
        "</td><td><a href=\"/uploads/".data ++
          urllib.parse.quote (dictGet hdr row "front_filename".data) ++
        "\" target=\"_blank\">".data ++
        "<img src=\"/uploads/".data ++
          urllib.parse.quote (dictGet hdr row "front_filename".data) ++
        "\" alt=\"ID front\" class=\"thumb\"></a></td>".data ++
        "<td><a href=\"/uploads/".data ++
          urllib.parse.quote (dictGet hdr row "back_filename".data) ++
        "\" target=\"_blank\">".data ++
        "<img src=\"/uploads/".data ++
          urllib.parse.quote (dictGet hdr row "back_filename".data) ++
        "\" alt=\"ID back\" class=\"thumb\"></a></td></tr>".data) := by
  refine ⟨cgi_escape_eq_specEscape, ?_, ?_, ?_⟩
  · intro em hem
    simp [render_index, flashFragment, cgi_escape_eq_specEscape, hem]
  · intro fn ln
    simp [render_success, cgi_escape_eq_specEscape]
  · intro hdr row
    simp [adminRow, cgi_escape_eq_specEscape]

/-- Witness for C1 (amended): the flash-fragment equation applied at a
concrete non-empty message. -/
theorem C1_escaping_witness :
    render_index "x<y".data =
      replaceAll "{error_message}".data
        ("<div class=\"flash-messages\"><li>".data ++ specEscape "x<y".data ++
          "</li></div>".data) indexTemplate :=
  C1_escaping.2.1 "x<y".data (by decide)

/-! ## Claim C2 -/

/-- C2, as stated, is false: a fully valid submission is answered by a direct
status-200 render of the success page, not by a 303 redirect. -/
theorem C2_counterexample :
    ((handle_registration sampleEnv (some sampleCT) sampleForm sampleState).2).status = 200 ∧
      ((handle_registration sampleEnv (some sampleCT) sampleForm sampleState).2).status ≠ 303 := by
  constructor
  · decide
  · decide

/-- C2 (amended): every valid submission (non-empty trimmed text fields, both
files present with allowed extensions, no I/O failure) is answered directly
with status 200 and the success page rendered with the submitted (trimmed)
first and last name. -/
theorem C2_success_render (env : Env) (ct : Str) (form : Form) (st : ServerState)
    (front back : FilePart)
    (hf : form.id_front = some front) (hb : form.id_back = some back)
    (h1 : strip (getvalue form.first_name []) ≠ [])
    (h2 : strip (getvalue form.last_name []) ≠ [])
    (h3 : strip (getvalue form.id_type []) ≠ [])
    (hfn : front.filename ≠ []) (hbn : back.filename ≠ [])
    (haf : allowed front.filename = true) (hab : allowed back.filename = true)
    (hio1 : env.ioFailSaveFront = false) (hio2 : env.ioFailSaveBack = false)
    (hio3 : env.ioFailRecord = false) :
    (handle_registration env (some ct) form st).2 =
        Response.page (render_success (strip (getvalue form.first_name []))
          (strip (getvalue form.last_name []))) ∧
      ((handle_registration env (some ct) form st).2).status = 200 := by
  rw [handle_registration_success env ct form st front back hf hb h1 h2 h3 hfn hbn haf hab
    hio1 hio2 hio3]
  exact ⟨rfl, rfl⟩

/-- Witness for C2 (amended): the Ana/Lee scenario; the rendered body shows
both names. -/
theorem C2_success_render_witness :
    (handle_registration sampleEnv (some sampleCT) sampleForm sampleState).2 =
        Response.page (render_success "Ana".data "Lee".data) ∧
      ("Ana".data : Str) <:+:
        ((handle_registration sampleEnv (some sampleCT) sampleForm sampleState).2).body ∧
      ("Lee".data : Str) <:+:
        ((handle_registration sampleEnv (some sampleCT) sampleForm sampleState).2).body :=
  ⟨(C2_success_render sampleEnv sampleCT sampleForm sampleState _ _ rfl rfl (by decide)
      (by decide) (by decide) (by decide) (by decide) (by decide) (by decide) rfl rfl rfl).1,
    by decide, by decide⟩

/-! ## Claim C4 -/

/-- C4: a POST `/register` submission with any required text field absent or
empty after trimming leaves both stores untouched and is answered by a 303
redirect to `/?error=Please%20complete%20all%20required%20fields.`. -/
theorem C4_missing_fields (env : Env) (ct : Str) (form : Form) (st : ServerState)
    (h : strip (getvalue form.first_name []) = [] ∨
      strip (getvalue form.last_name []) = [] ∨ strip (getvalue form.id_type []) = []) :
    handle_registration env (some ct) form st =
      (st, Response.redirect "/?error=Please%20complete%20all%20required%20fields.".data) := by
  unfold handle_registration
  rw [if_pos h]
  exact congrArg (Prod.mk st) (by decide)

/-- Witness for C4: an empty first name. -/
theorem C4_missing_fields_witness :
    handle_registration sampleEnv (some sampleCT)
        ⟨some "".data, some "Lee".data, some "passport".data, none, none⟩ sampleState =
      (sampleState,
        Response.redirect "/?error=Please%20complete%20all%20required%20fields.".data) :=
  C4_missing_fields sampleEnv sampleCT _ sampleState (Or.inl (by decide))

/-! ## Claim C3 -/

/-- C3, as stated, is false: a request whose method is neither GET nor POST
(here `PUT /register`) is answered 501 ("Unsupported method") by the
`http.server` base class dispatcher, not 404. -/
theorem C3_counterexample :
    ((dispatch sampleEnv (some sampleCT) sampleForm sampleFs sampleState
        (Method.other "PUT".data) "/register".data).2).status = 501 ∧
      ((dispatch sampleEnv (some sampleCT) sampleForm sampleFs sampleState
        (Method.other "PUT".data) "/register".data).2).status ≠ 404 := by
  constructor
  · rfl
  · decide

/-- C3 (amended): for GET and POST, any path outside the defined routes gets
the identical `404 File Not Found` answer — no distinction between an unknown
path and the known POST-only path `/register` requested via GET, or `/`
requested via POST; a request with any other method is answered 501 by the
inherited dispatcher rather than 404. -/
theorem C3_routing :
    (∀ (fs : Fs) (st : ServerState) (raw : Str),
      ¬ "/static/".data.isPrefixOf (urlPath raw) →
      ¬ "/uploads/".data.isPrefixOf (urlPath raw) →
      urlPath raw ≠ "/".data → urlPath raw ≠ "/index.html".data →
      urlPath raw ≠ "/admin".data →
      do_GET fs st raw = Response.httpError 404 "File Not Found".data) ∧
    (∀ (env : Env) (ct : Option Str) (form : Form) (st : ServerState) (raw : Str),
      urlPath raw ≠ "/register".data →
      do_POST env ct form st raw = (st, Response.httpError 404 "File Not Found".data)) ∧
    (∀ (env : Env) (ct : Option Str) (form : Form) (fs : Fs) (st : ServerState)
        (name raw : Str),
      dispatch env ct form fs st (Method.other name) raw =
        (st, Response.httpError 501
          ("Unsupported method (".data ++ '\'' :: name ++ '\'' :: ")".data))) := by
  refine ⟨?_, ?_, ?_⟩
  · intro fs st raw h1 h2 h3 h4 h5
    unfold do_GET
    rw [if_neg h1, if_neg h2, if_neg (by simp [h3, h4]), if_neg h5]
  · intro env ct form st raw h
    unfold do_POST
    rw [if_neg h]
  · intro env ct form fs st name raw
    rfl

/-- Witness for C3 (amended): GET of an unknown path and POST of `/` both
get the same 404. -/
theorem C3_routing_witness :
    do_GET sampleFs sampleState "/nope".data =
        Response.httpError 404 "File Not Found".data ∧
      do_POST sampleEnv (some sampleCT) sampleForm sampleState "/".data =
        (sampleState, Response.httpError 404 "File Not Found".data) :=
  ⟨C3_routing.1 sampleFs sampleState "/nope".data (by decide) (by decide) (by decide)
      (by decide) (by decide),
    C3_routing.2.1 sampleEnv (some sampleCT) sampleForm sampleState "/".data (by decide)⟩

/-! ## Claim C5 -/

/-- C5: a valid submission appends exactly one data row to the record store,
adds exactly two files to the upload store, and the two filenames written in
the row are names of files present in the upload store afterwards.  The
freshness of both generated names (which `uuid4` provides in the source) and
a record store that is not a pre-existing empty file are hypotheses. -/
theorem C5_valid_submission (env : Env) (ct : Str) (form : Form) (st : ServerState)
    (front back : FilePart)
    (hf : form.id_front = some front) (hb : form.id_back = some back)
    (h1 : strip (getvalue form.first_name []) ≠ [])
    (h2 : strip (getvalue form.last_name []) ≠ [])
    (h3 : strip (getvalue form.id_type []) ≠ [])
    (hfn : front.filename ≠ []) (hbn : back.filename ≠ [])
    (haf : allowed front.filename = true) (hab : allowed back.filename = true)
    (hio1 : env.ioFailSaveFront = false) (hio2 : env.ioFailSaveBack = false)
    (hio3 : env.ioFailRecord = false)
    (hdb : st.database ≠ some [])
    (hfr : ∀ p ∈ st.uploads, p.1 ≠ frontUploadName env front)
    (hbk : ∀ p ∈ st.uploads, p.1 ≠ backUploadName env back) :
    dataRows ((handle_registration env (some ct) form st).1).database =
        dataRows st.database ++ [successRow env form front back] ∧
      ((handle_registration env (some ct) form st).1).uploads =
        st.uploads ++ [(frontUploadName env front, front.content),
          (backUploadName env back, back.content)] ∧
      frontUploadName env front ∈
        (((handle_registration env (some ct) form st).1).uploads).map Prod.fst ∧
      backUploadName env back ∈
        (((handle_registration env (some ct) form st).1).uploads).map Prod.fst := by
  rw [handle_registration_success env ct form st front back hf hb h1 h2 h3 hfn hbn haf hab
    hio1 hio2 hio3]
  have hfb : frontUploadName env front ≠ backUploadName env back := by
    unfold frontUploadName backUploadName
    exact makeUploadName_front_ne_back _ _ _ _
  have hw1 : fsWrite st.uploads (frontUploadName env front) front.content =
      st.uploads ++ [(frontUploadName env front, front.content)] :=
    fsWrite_fresh _ _ _ hfr
  have hw2 : fsWrite (st.uploads ++ [(frontUploadName env front, front.content)])
      (backUploadName env back) back.content =
      st.uploads ++ [(frontUploadName env front, front.content)] ++
        [(backUploadName env back, back.content)] :=
    fsWrite_fresh _ _ _ (by
      intro p hp
      rcases List.mem_append.mp hp with hm | hm
      · exact hbk p hm
      · rw [List.mem_singleton.mp hm]
        exact hfb)
  dsimp only
  rw [hw1, hw2, dataRows_appendRecord st.database _ hdb]
  refine ⟨rfl, by simp, by simp, by simp⟩

/-- Witness for C5: the Ana/Lee scenario starting from a fresh state. -/
theorem C5_valid_submission_witness :
    dataRows ((handle_registration sampleEnv (some sampleCT) sampleForm sampleState).1).database =
        dataRows sampleState.database ++
          [successRow sampleEnv sampleForm ⟨"a.png".data, [137, 80]⟩ ⟨"b.jpg".data, [255, 216]⟩] ∧
      ((handle_registration sampleEnv (some sampleCT) sampleForm sampleState).1).uploads =
        sampleState.uploads ++
          [(frontUploadName sampleEnv ⟨"a.png".data, [137, 80]⟩, [137, 80]),
            (backUploadName sampleEnv ⟨"b.jpg".data, [255, 216]⟩, [255, 216])] ∧
      frontUploadName sampleEnv ⟨"a.png".data, [137, 80]⟩ ∈
        (((handle_registration sampleEnv (some sampleCT) sampleForm sampleState).1).uploads).map
          Prod.fst ∧
      backUploadName sampleEnv ⟨"b.jpg".data, [255, 216]⟩ ∈
        (((handle_registration sampleEnv (some sampleCT) sampleForm sampleState).1).uploads).map
          Prod.fst :=
  C5_valid_submission sampleEnv sampleCT sampleForm sampleState _ _ rfl rfl (by decide)
    (by decide) (by decide) (by decide) (by decide) (by decide) (by decide) rfl rfl rfl
    (by decide) (by decide) (by decide)

/-! ## Claim C6 -/

/-- C6: the extension check accepts a filename exactly when it contains a dot
and the lowercased suffix after its last dot is `png`, `jpg`, `jpeg` or
`gif`; and a submission whose front or back filename fails the check leaves
the state unchanged (no row, no files) and is answered by a redirect. -/
theorem C6_extension_check :
    (∀ f : Str, allowed f = true ↔ SpecAllowed f) ∧
    (∀ (env : Env) (ct : Str) (form : Form) (st : ServerState) (front back : FilePart),
      form.id_front = some front → form.id_back = some back →
      front.filename ≠ [] → back.filename ≠ [] →
      (allowed front.filename = false ∨ allowed back.filename = false) →
      (handle_registration env (some ct) form st).1 = st ∧
        ∃ loc, (handle_registration env (some ct) form st).2 = Response.redirect loc) := by
  refine ⟨allowed_iff_specAllowed, ?_⟩
  intro env ct form st front back hf hb hfn hbn hbad
  by_cases hfields : strip (getvalue form.first_name []) = [] ∨
      strip (getvalue form.last_name []) = [] ∨ strip (getvalue form.id_type []) = []
  · unfold handle_registration
    rw [if_pos hfields]
    exact ⟨rfl, _, rfl⟩
  · push_neg at hfields
    unfold handle_registration
    rw [hf, hb]
    dsimp only
    rw [if_neg (by simp [hfields.1, hfields.2.1, hfields.2.2]), if_neg hfn, if_neg hbn]
    rcases hbad with hbad | hbad
    · rw [if_pos hbad]
      exact ⟨rfl, _, rfl⟩
    · by_cases haf : allowed front.filename = false
      · rw [if_pos haf]
        exact ⟨rfl, _, rfl⟩
      · rw [if_neg haf, if_pos hbad]
        exact ⟨rfl, _, rfl⟩

/-- Witness for C6: the characterization at `a.png`, and an aborted
submission whose front file is `a.txt`. -/
theorem C6_extension_check_witness :
    (allowed "a.png".data = true ↔ SpecAllowed "a.png".data) ∧
      ((handle_registration sampleEnv (some sampleCT)
          ⟨some "Ana".data, some "Lee".data, some "passport".data,
            some ⟨"a.txt".data, [1]⟩, some ⟨"b.jpg".data, [2]⟩⟩ sampleState).1 =
          sampleState ∧
        ∃ loc, (handle_registration sampleEnv (some sampleCT)
          ⟨some "Ana".data, some "Lee".data, some "passport".data,
            some ⟨"a.txt".data, [1]⟩, some ⟨"b.jpg".data, [2]⟩⟩ sampleState).2 =
          Response.redirect loc) :=
  ⟨C6_extension_check.1 "a.png".data,
    C6_extension_check.2 sampleEnv sampleCT _ sampleState ⟨"a.txt".data, [1]⟩
      ⟨"b.jpg".data, [2]⟩ rfl rfl (by decide) (by decide) (Or.inl (by decide))⟩

/-! ## Claim C7 -/

/-- C7: starting from a state where the CSV file does not exist, after any
sequence of submissions either the file still does not exist or its first
line is the header row and the header row occurs in it exactly once; and a
call that finds the file existing only ever appends to its rows (never
rewrites a header).  The hypothesis that each record timestamp differs from
the literal `timestamp` is what `datetime.now().isoformat()` delivers. -/
theorem C7_header_once :
    (∀ (steps : List Step) (uploads0 : List (Str × List Nat)),
      (∀ s ∈ steps, s.env.recordTimestamp ≠ "timestamp".data) →
      (runSeq steps ⟨none, uploads0⟩).database = none ∨
        ∃ rows, (runSeq steps ⟨none, uploads0⟩).database = some (headerRow :: rows) ∧
          (headerRow :: rows).count headerRow = 1) ∧
    (∀ (env : Env) (ct : Option Str) (form : Form) (st : ServerState)
        (rows : List (List Str)), st.database = some rows →
      ((handle_registration env ct form st).1).database = some rows ∨
        ∃ row, ((handle_registration env ct form st).1).database = some (rows ++ [row])) := by
  constructor
  · intro steps uploads0 hts
    have h := headerInv_runSeq steps ⟨none, uploads0⟩ hts (Or.inl rfl)
    unfold HeaderInv at h
    rcases h with h | ⟨rows, hdb, hnm⟩
    · exact Or.inl h
    · refine Or.inr ⟨rows, hdb, ?_⟩
      rw [List.count_cons_self, List.count_eq_zero_of_not_mem hnm]
  · intro env ct form st rows hdb
    rcases handle_registration_database env ct form st with h | ⟨rest, h⟩
    · exact Or.inl (h.trans hdb)
    · rw [hdb] at h
      exact Or.inr ⟨env.recordTimestamp :: rest, h⟩

/-- Witness for C7: one valid submission from scratch, and one call on a
state whose file already holds the bare header line. -/
theorem C7_header_once_witness :
    ((runSeq [⟨sampleEnv, some sampleCT, sampleForm⟩] ⟨none, []⟩).database = none ∨
      ∃ rows, (runSeq [⟨sampleEnv, some sampleCT, sampleForm⟩] ⟨none, []⟩).database =
          some (headerRow :: rows) ∧ (headerRow :: rows).count headerRow = 1) ∧
      (((handle_registration sampleEnv (some sampleCT) sampleForm
          ⟨some [headerRow], []⟩).1).database = some [headerRow] ∨
        ∃ row, ((handle_registration sampleEnv (some sampleCT) sampleForm
          ⟨some [headerRow], []⟩).1).database = some ([headerRow] ++ [row])) :=
  ⟨C7_header_once.1 [⟨sampleEnv, some sampleCT, sampleForm⟩] [] (by decide),
    C7_header_once.2 sampleEnv (some sampleCT) sampleForm ⟨some [headerRow], []⟩ [headerRow]
      rfl⟩

/-! ## Claim C8 -/

/-- C8: generated names have the form
`{timestamp}_{uniqueToken}_{side}_{originalBaseName}` — a basename never
contains a directory separator, and a successful submission stores exactly
those two names; names generated from distinct 32-character tokens (and the
fixed-width timestamps of `%Y%m%d_%H%M%S_%f`) are always distinct, whatever
the submitted original filenames are. -/
theorem C8_upload_names :
    (∀ p : Str, '/' ∉ os.path.basename p) ∧
    (∀ (env : Env) (ct : Str) (form : Form) (st : ServerState) (front back : FilePart),
      form.id_front = some front → form.id_back = some back →
      strip (getvalue form.first_name []) ≠ [] → strip (getvalue form.last_name []) ≠ [] →
      strip (getvalue form.id_type []) ≠ [] →
      front.filename ≠ [] → back.filename ≠ [] →
      allowed front.filename = true → allowed back.filename = true →
      env.ioFailSaveFront = false → env.ioFailSaveBack = false → env.ioFailRecord = false →
      ((handle_registration env (some ct) form st).1).uploads =
        fsWrite (fsWrite st.uploads
          (makeUploadName env.fileTimestamp env.uuidHex "front".data
            (os.path.basename front.filename)) front.content)
          (makeUploadName env.fileTimestamp env.uuidHex "back".data
            (os.path.basename back.filename)) back.content) ∧
    (∀ ts₁ tok₁ s₁ b₁ ts₂ tok₂ s₂ b₂ : Str, ts₁.length = ts₂.length →
      tok₁.length = tok₂.length → tok₁ ≠ tok₂ →
      makeUploadName ts₁ tok₁ s₁ b₁ ≠ makeUploadName ts₂ tok₂ s₂ b₂) := by
  refine ⟨basename_no_slash, ?_, makeUploadName_inj_token⟩
  intro env ct form st front back hf hb h1 h2 h3 hfn hbn haf hab hio1 hio2 hio3
  rw [handle_registration_success env ct form st front back hf hb h1 h2 h3 hfn hbn haf hab
    hio1 hio2 hio3]
  rfl

set_option maxHeartbeats 1000000 in
/-- Witness for C8: a path-traversal basename, the Ana/Lee submission, and
two names with different tokens but identical original filename. -/
theorem C8_upload_names_witness :
    '/' ∉ os.path.basename "../../etc/x.png".data ∧
      ((handle_registration sampleEnv (some sampleCT) sampleForm sampleState).1).uploads =
        fsWrite (fsWrite sampleState.uploads
          (makeUploadName sampleEnv.fileTimestamp sampleEnv.uuidHex "front".data
            (os.path.basename "a.png".data)) [137, 80])
          (makeUploadName sampleEnv.fileTimestamp sampleEnv.uuidHex "back".data
            (os.path.basename "b.jpg".data)) [255, 216] ∧
      makeUploadName "20250101_120000_000000".data
          "0123456789abcdef0123456789abcdef".data "front".data "photo.png".data ≠
        makeUploadName "20250101_120000_000001".data
          "ffffffffffffffffffffffffffffffff".data "front".data "photo.png".data :=
  ⟨C8_upload_names.1 "../../etc/x.png".data,
    C8_upload_names.2.1 sampleEnv sampleCT sampleForm sampleState ⟨"a.png".data, [137, 80]⟩
      ⟨"b.jpg".data, [255, 216]⟩ rfl rfl (by decide)
      (by decide) (by decide) (by decide) (by decide) (by decide) (by decide) rfl rfl rfl,
    C8_upload_names.2.2 _ _ _ _ _ _ _ _ (by decide) (by decide) (by decide)⟩

/-! ## Claim C10 -/

/-- C10: within one successful submission the stored front and back names are
generated from the same timestamp and the same token and differ only in the
side marker, and two such names are always distinct. -/
theorem C10_front_back_names :
    (∀ (env : Env) (ct : Str) (form : Form) (st : ServerState) (front back : FilePart),
      form.id_front = some front → form.id_back = some back →
      strip (getvalue form.first_name []) ≠ [] → strip (getvalue form.last_name []) ≠ [] →
      strip (getvalue form.id_type []) ≠ [] →
      front.filename ≠ [] → back.filename ≠ [] →
      allowed front.filename = true → allowed back.filename = true →
      env.ioFailSaveFront = false → env.ioFailSaveBack = false → env.ioFailRecord = false →
      ((handle_registration env (some ct) form st).1).uploads =
        fsWrite (fsWrite st.uploads
          (makeUploadName env.fileTimestamp env.uuidHex "front".data
            (os.path.basename front.filename)) front.content)
          (makeUploadName env.fileTimestamp env.uuidHex "back".data
            (os.path.basename back.filename)) back.content) ∧
    (∀ ts tok b₁ b₂ : Str,
      makeUploadName ts tok "front".data b₁ ≠ makeUploadName ts tok "back".data b₂) := by
  refine ⟨?_, makeUploadName_front_ne_back⟩
  intro env ct form st front back hf hb h1 h2 h3 hfn hbn haf hab hio1 hio2 hio3
  rw [handle_registration_success env ct form st front back hf hb h1 h2 h3 hfn hbn haf hab
    hio1 hio2 hio3]
  rfl

set_option maxHeartbeats 1000000 in
/-- Witness for C10: the Ana/Lee submission, and the front/back pair of one
fixed timestamp and token with identical original filenames. -/
theorem C10_front_back_names_witness :
    ((handle_registration sampleEnv (some sampleCT) sampleForm sampleState).1).uploads =
        fsWrite (fsWrite sampleState.uploads
          (makeUploadName sampleEnv.fileTimestamp sampleEnv.uuidHex "front".data
            (os.path.basename "a.png".data)) [137, 80])
          (makeUploadName sampleEnv.fileTimestamp sampleEnv.uuidHex "back".data
            (os.path.basename "b.jpg".data)) [255, 216] ∧
      makeUploadName "20250101_120000_000000".data
          "0123456789abcdef0123456789abcdef".data "front".data "photo.png".data ≠
        makeUploadName "20250101_120000_000000".data
          "0123456789abcdef0123456789abcdef".data "back".data "photo.png".data :=
  ⟨C10_front_back_names.1 sampleEnv sampleCT sampleForm sampleState ⟨"a.png".data, [137, 80]⟩
      ⟨"b.jpg".data, [255, 216]⟩ rfl rfl (by decide)
      (by decide) (by decide) (by decide) (by decide) (by decide) (by decide) rfl rfl rfl,
    C10_front_back_names.2 _ _ _ _⟩

/-! ## Claim C9 -/

/-- C9, as stated, is false: the URL `/?error=` carries an `error` query
parameter, but `parse_qs` drops blank values and `render_index` renders no
flash fragment for the resulting empty message — the page contains no
`flash-messages` block. -/
theorem C9_counterexample :
    hasErrorParam "error=".data = true ∧
      do_GET sampleFs sampleState "/?error=".data =
        Response.page (replaceAll "{error_message}".data [] indexTemplate) ∧
      ¬ ("flash-messages".data : Str) <:+:
        (do_GET sampleFs sampleState "/?error=".data).body := by
  refine ⟨by decide, by decide, by decide⟩

/-- C9 (amended): a GET of `/` or `/index.html` whose `error` query parameter
decodes to a non-empty value is answered with the form page carrying the
flash fragment that displays the HTML-escaped value; a blank-valued `error`
parameter is dropped by the query parser and produces no flash fragment. -/
theorem C9_error_flash (fs : Fs) (st : ServerState) (raw : Str)
    (hpath : urlPath raw = "/".data ∨ urlPath raw = "/index.html".data)
    (hv : firstParam (queryPart raw) "error".data ≠ []) :
    do_GET fs st raw =
      Response.page (replaceAll "{error_message}".data
        (flashFragment (firstParam (queryPart raw) "error".data)) indexTemplate) := by
  have h1 : ¬ "/static/".data.isPrefixOf (urlPath raw) := by
    rcases hpath with h | h <;> rw [h] <;> decide
  have h2 : ¬ "/uploads/".data.isPrefixOf (urlPath raw) := by
    rcases hpath with h | h <;> rw [h] <;> decide
  unfold do_GET
  rw [if_neg h1, if_neg h2, if_pos hpath]
  unfold render_index
  rw [if_pos hv]

/-- Witness for C9 (amended): `/?error=oops` renders the flash fragment and
the page body shows `oops`. -/
theorem C9_error_flash_witness :
    do_GET sampleFs sampleState "/?error=oops".data =
        Response.page (replaceAll "{error_message}".data
          (flashFragment ("oops".data)) indexTemplate) ∧
      ("oops".data : Str) <:+: (do_GET sampleFs sampleState "/?error=oops".data).body :=
  ⟨C9_error_flash sampleFs sampleState "/?error=oops".data (Or.inl (by decide)) (by decide),
    by decide⟩
